import Mathlib

/-!
# Shallow embedding of the BE-Servicios-v2.1 authentication core

This file embeds the authentication engine of the repository
(controllers `registrarUsuario`, `verificarUsuario`, `loginUsuario`,
`refrescarToken` from `autenticacion.controlador.ts`, `accesoMaestro` from
`accesoMaestro.controlador.ts`, the middlewares `autenticarJWT` and
`esAdmin`, and the response helpers from `respuestaEstandarizada.ts`) as
pure Lean functions over an explicit store state, and proves the spec's
testable properties about them.

Modelling conventions:
* The three MongoDB collections (`CodigoVerificacion`, `Usuario`,
  `RefreshToken`) are lists of documents inside a `Store`; Mongo's
  client-assigned fresh `_id`s are modelled by a `nextId` counter.
* `findOne` is `List.find?` (first matching document), `deleteOne` is
  `List.eraseP` (removes the first matching document), `create`/`save`
  append a document with a fresh id, and `findOneAndUpdate` with
  `upsert: true` replaces the first document matching the filter (keeping
  its `_id`) or inserts a new one.
* Phones reaching the engine match the upstream Zod E.164 validation
  `/^\+[1-9]\d{9,14}$/`, on which the Mongoose `trim`/`lowercase` setters
  are the identity, so those setters are omitted.
* The credential generator (`src/utilidades/generarToken.ts`) and the JWT
  library are external to the embedded store logic; generated strings
  (verification codes, JWTs, refresh-token strings) enter each controller
  as explicit oracle arguments, and `jwt.verify` is an oracle function.
* `creadoEn` timestamps and the store-enforced TTLs carry no information
  used by any control path modelled here, so they are omitted from the
  documents.
-/

/-- Role of a user, mirroring `usuarioSchema.rol : enum ['usuario','admin']`. -/
inductive Rol where
  | usuario : Rol
  | admin : Rol
deriving DecidableEq, Repr

/-- A document of the `CodigoVerificacion` collection
(`codigoVerificacion.modelo.ts`): `_id`, `telefono`, `codigo`. -/
structure CodigoDoc where
  id : Nat
  telefono : String
  codigo : String
deriving DecidableEq, Repr

/-- A document of the `Usuario` collection (`usuario.modelo.ts`):
`_id`, `telefono` (unique), `estaVerificado` (default false),
`rol` (default `usuario`). -/
structure UsuarioDoc where
  id : Nat
  telefono : String
  estaVerificado : Bool
  rol : Rol
deriving DecidableEq, Repr

/-- A document of the `RefreshToken` collection (`refreshToken.modelo.ts`):
`_id`, `token` (unique), `usuarioId`. -/
structure RefreshDoc where
  id : Nat
  token : String
  usuarioId : Nat
deriving DecidableEq, Repr

/-- The durable state shared by all requests: the three collections plus a
fresh-`_id` supply. -/
structure Store where
  codigos : List CodigoDoc
  usuarios : List UsuarioDoc
  refreshTokens : List RefreshDoc
  nextId : Nat
deriving DecidableEq, Repr

/-- Validation-error detail (`ErrorDetalle` in `respuestaEstandarizada.ts`). -/
structure ErrorDetalle where
  campo : String
  mensaje : String
deriving DecidableEq, Repr

/-- Payloads (`datos`) appearing in success responses of the embedded
endpoints. `vacio` is the JSON `null` payload. -/
inductive Datos where
  | vacio : Datos
  | loginDatos (token refreshToken : String) (usuarioId : Nat) (telefono : String) : Datos
  | refreshDatos (token refreshToken : String) : Datos
  | masterDatos (token refreshToken : String) (usuarioId : Nat) (telefono : String) (rol : Rol) : Datos
deriving DecidableEq, Repr

/-- The uniform JSON response envelope
(`{exito, mensaje, datos?, codigo?, errores?}` plus the HTTP status).
`none` in an `Option` field means the JSON field is absent. -/
structure Envelope where
  exito : Bool
  mensaje : String
  datos : Option Datos
  codigo : Option String
  errores : Option (List ErrorDetalle)
  status : Nat
deriving DecidableEq, Repr

/-- `enviarRespuestaExitosa` (`respuestaEstandarizada.ts`): status defaults
to 200 at call sites; `exito: true`, no `codigo`, no `errores`. -/
def enviarRespuestaExitosa (mensaje : String) (datos : Datos) (statusCode : Nat) : Envelope :=
  { exito := true
    mensaje := mensaje
    datos := some datos
    codigo := none
    errores := none
    status := statusCode }

/-- `enviarRespuestaError` (`respuestaEstandarizada.ts`): status defaults to
400 at call sites; `exito: false`, always a `codigo`, `errores` only when
provided, no `datos` field. -/
def enviarRespuestaError (mensaje codigo : String) (errores : Option (List ErrorDetalle))
    (statusCode : Nat) : Envelope :=
  { exito := false
    mensaje := mensaje
    datos := none
    codigo := some codigo
    errores := errores
    status := statusCode }

/-- The 404 middleware in `app.ts`: responds
`{exito: false, mensaje: 'Ruta no encontrada', datos: null}` — note it does
not go through `enviarRespuestaError` and carries no `codigo` field. -/
def manejador404 : Envelope :=
  { exito := false
    mensaje := "Ruta no encontrada"
    datos := some Datos.vacio
    codigo := none
    errores := none
    status := 404 }

/-- The global error middleware in `app.ts`: responds
`{exito: false, mensaje: err.message || 'Error interno del servidor',
datos: null}` with status `err.status || 500` — again no `codigo` field. -/
def manejadorErroresGlobal (errStatus : Option Nat) (errMensaje : Option String) : Envelope :=
  { exito := false
    mensaje := errMensaje.getD "Error interno del servidor"
    datos := some Datos.vacio
    codigo := none
    errores := none
    status := errStatus.getD 500 }

/-- Replace the first element satisfying `p` by `x` (the effect of a Mongo
update on the first document matching a filter). -/
def reemplazarPrimero (p : α → Bool) (x : α) : List α → List α
  | [] => []
  | a :: l => if p a then x :: l else a :: reemplazarPrimero p x l

/-- `CodigoVerificacion.findOneAndUpdate({telefono}, {telefono, codigo,
creadoEn}, {upsert: true, new: true})` from `registrarUsuario`: update the
first document with this `telefono` (keeping its `_id`), or insert a fresh
document. -/
def upsertCodigo (tel codigo : String) (s : Store) : Store :=
  match s.codigos.find? (fun d => d.telefono == tel) with
  | some d =>
      let nuevo : CodigoDoc := { id := d.id, telefono := tel, codigo := codigo }
      { s with codigos := reemplazarPrimero (fun d2 => d2.telefono == tel) nuevo s.codigos }
  | none =>
      let nuevo : CodigoDoc := { id := s.nextId, telefono := tel, codigo := codigo }
      { s with codigos := s.codigos ++ [nuevo], nextId := s.nextId + 1 }

/-- Observable side effects of `registrarUsuario`, in program order. -/
inductive Evento where
  | persistirCodigo (telefono codigo : String) : Evento
  | intentoSMS (telefono mensaje : String) : Evento
deriving DecidableEq, Repr

/-- Whether the store holds a pending verification row matching
`{telefono, codigo}` exactly. -/
def contieneCodigo (tel codigo : String) (s : Store) : Bool :=
  (s.codigos.find? (fun d => d.telefono == tel && d.codigo == codigo)).isSome

/-- `registrarUsuario` (`autenticacion.controlador.ts` lines 36–57):
generates a code (here the oracle argument `codigo`), upserts the
`CodigoVerificacion` row keyed by `telefono`, then attempts the SMS send
(`smsOk` is whether `enviarSMS` resolves or throws). The returned trace
pairs each side effect with the store state in which it executes; a
notifier failure is caught and reported as the generic
`ERROR_REGISTRO_USUARIO` error. -/
def registrarUsuario (tel codigo : String) (smsOk : Bool) (s : Store) :
    List (Evento × Store) × Envelope × Store :=
  let s1 := upsertCodigo tel codigo s
  let traza := [(Evento.persistirCodigo tel codigo, s),
                (Evento.intentoSMS tel ("Tu código de verificación es: " ++ codigo), s1)]
  if smsOk then
    (traza, enviarRespuestaExitosa "Código enviado correctamente" Datos.vacio 200, s1)
  else
    (traza, enviarRespuestaError "Error interno del servidor" "ERROR_REGISTRO_USUARIO" none 400, s1)

/-- `verificarUsuario` (`autenticacion.controlador.ts` lines 65–86):
`findOne({telefono, codigo})`; on miss answer
`CODIGO_INVALIDO_O_EXPIRADO`; on hit `deleteOne({_id})` and answer
success. -/
def verificarUsuario (tel codigo : String) (s : Store) : Envelope × Store :=
  match s.codigos.find? (fun d => d.telefono == tel && d.codigo == codigo) with
  | none =>
      (enviarRespuestaError "Código incorrecto o expirado" "CODIGO_INVALIDO_O_EXPIRADO" none 400, s)
  | some d =>
      (enviarRespuestaExitosa "Código verificado correctamente" Datos.vacio 200,
       { s with codigos := s.codigos.eraseP (fun d2 => d2.id == d.id) })

/-- `loginUsuario` (`autenticacion.controlador.ts` lines 96–139):
`findOne({telefono})`, compare the `codigo` field; on mismatch or absence
answer `CODIGO_INVALIDO`; otherwise find-or-create the `Usuario`, issue the
JWT (oracle `jwt`), persist a new `RefreshToken` (oracle `tok`), delete the
consumed code row (`deleteOne({telefono})`), and answer the login payload. -/
def loginUsuario (tel codigo jwt tok : String) (s : Store) : Envelope × Store :=
  match s.codigos.find? (fun d => d.telefono == tel) with
  | none => (enviarRespuestaError "Código inválido o expirado" "CODIGO_INVALIDO" none 400, s)
  | some codigoDoc =>
      if codigoDoc.codigo != codigo then
        (enviarRespuestaError "Código inválido o expirado" "CODIGO_INVALIDO" none 400, s)
      else
        let encontrado := s.usuarios.find? (fun u => u.telefono == tel)
        let usuario : UsuarioDoc :=
          match encontrado with
          | some u => u
          | none => { id := s.nextId, telefono := tel, estaVerificado := false, rol := Rol.usuario }
        let s1 : Store :=
          match encontrado with
          | some _ => s
          | none => { s with usuarios := s.usuarios ++ [usuario], nextId := s.nextId + 1 }
        let s2 : Store :=
          { s1 with
            refreshTokens := s1.refreshTokens ++ [{ id := s1.nextId, token := tok, usuarioId := usuario.id }]
            nextId := s1.nextId + 1 }
        let s3 : Store := { s2 with codigos := s2.codigos.eraseP (fun d => d.telefono == tel) }
        (enviarRespuestaExitosa "Login exitoso"
          (Datos.loginDatos jwt tok usuario.id usuario.telefono) 200, s3)

/-- `refrescarToken` (`autenticacion.controlador.ts` lines 148–194):
`RefreshToken.findOne({token})`; absent answers `REFRESH_TOKEN_INVALIDO`;
then `Usuario.findById`; absent answers `USUARIO_NO_EXISTE`; then rotation:
`deleteOne({_id})` of the consumed session, issue a new JWT (oracle
`nuevoJWT`) and persist a new session with the oracle token string
`nuevoTok`. -/
def refrescarToken (refreshToken nuevoJWT nuevoTok : String) (s : Store) : Envelope × Store :=
  match s.refreshTokens.find? (fun r => r.token == refreshToken) with
  | none =>
      (enviarRespuestaError "Refresh token inválido o caducado" "REFRESH_TOKEN_INVALIDO" none 400, s)
  | some tokenEnBD =>
      match s.usuarios.find? (fun u => u.id == tokenEnBD.usuarioId) with
      | none => (enviarRespuestaError "Usuario no encontrado" "USUARIO_NO_EXISTE" none 400, s)
      | some usuario =>
          let s1 : Store :=
            { s with refreshTokens := s.refreshTokens.eraseP (fun r => r.id == tokenEnBD.id) }
          let s2 : Store :=
            { s1 with
              refreshTokens := s1.refreshTokens ++
                [{ id := s1.nextId, token := nuevoTok, usuarioId := usuario.id }]
              nextId := s1.nextId + 1 }
          (enviarRespuestaExitosa "Token renovado correctamente"
            (Datos.refreshDatos nuevoJWT nuevoTok) 200, s2)

/-- The process-wide configuration consumed by `accesoMaestro.controlador.ts`:
`CODIGO_MAESTRO` and `TELEFONO_ADMIN` from validated environment. -/
structure Config where
  codigoMaestro : String
  telefonoAdmin : String
deriving DecidableEq, Repr

/-- `accesoMaestro` (`accesoMaestro.controlador.ts` lines 117–165): wrong
code answers `CODIGO_MAESTRO_INVALIDO` with status 401; otherwise
find-or-create the `Usuario` with `telefono = TELEFONO_ADMIN` (created with
`rol: 'admin'`; an existing user is reused as stored), issue a JWT (oracle
`jwt`), persist a new `RefreshToken` (oracle `tok`), and answer the payload
with the user's stored `rol`. -/
def accesoMaestro (cfg : Config) (codigo jwt tok : String) (s : Store) : Envelope × Store :=
  if codigo != cfg.codigoMaestro then
    (enviarRespuestaError "Código incorrecto" "CODIGO_MAESTRO_INVALIDO" none 401, s)
  else
    let encontrado := s.usuarios.find? (fun u => u.telefono == cfg.telefonoAdmin)
    let usuario : UsuarioDoc :=
      match encontrado with
      | some u => u
      | none =>
          { id := s.nextId, telefono := cfg.telefonoAdmin, estaVerificado := false, rol := Rol.admin }
    let s1 : Store :=
      match encontrado with
      | some _ => s
      | none => { s with usuarios := s.usuarios ++ [usuario], nextId := s.nextId + 1 }
    let s2 : Store :=
      { s1 with
        refreshTokens := s1.refreshTokens ++ [{ id := s1.nextId, token := tok, usuarioId := usuario.id }]
        nextId := s1.nextId + 1 }
    (enviarRespuestaExitosa "Acceso maestro exitoso"
      (Datos.masterDatos jwt tok usuario.id usuario.telefono usuario.rol) 200, s2)

/-- A sequence of `accesoMaestro` calls, threading the store; each call
supplies its own oracle pair `(jwt, tok)` and uses the given `codigo`. -/
def llamadasMaestro (cfg : Config) (codigo : String) :
    List (String × String) → Store → List Envelope × Store
  | [], s => ([], s)
  | (jwt, tok) :: rest, s =>
      let r := accesoMaestro cfg codigo jwt tok s
      let rr := llamadasMaestro cfg codigo rest r.2
      (r.1 :: rr.1, rr.2)

/-- Split a character list at every occurrence of `sep`, keeping empty
segments, exactly like JavaScript's `String.prototype.split`. -/
def dividir (sep : Char) : List Char → List (List Char)
  | [] => [[]]
  | c :: cs =>
      match dividir sep cs with
      | [] => [[]]
      | g :: gs => if c == sep then [] :: g :: gs else (c :: g) :: gs

/-- `authHeader.startsWith('Bearer ')` from `auth.middleware.ts`, computed
on the character list so it reduces. -/
def empiezaConBearer (h : String) : Bool :=
  "Bearer ".data.isPrefixOf h.data

/-- The token after `Bearer `: `authHeader.split(' ')[1]` in
`auth.middleware.ts`. -/
def tokenDeHeader (h : String) : String :=
  String.mk (((dividir ' ' h.data).drop 1).headD [])

/-- `autenticarJWT` (`auth.middleware.ts` lines 30–65): missing header or
missing `Bearer ` prefix answers 401 `TOKEN_FALTANTE`; a token the oracle
`verify` rejects (signature or expiry — `jwt.verify` throws, caught) answers
401 `TOKEN_INVALIDO`; a verified `usuarioId` resolving to no stored user
answers 401 `USUARIO_INVALIDO`; otherwise the resolved user is attached. -/
def autenticarJWT (verify : String → Option Nat) (authHeader : Option String) (s : Store) :
    Except Envelope UsuarioDoc :=
  match authHeader with
  | none => .error (enviarRespuestaError "Token no proporcionado" "TOKEN_FALTANTE" none 401)
  | some h =>
      if ¬ (empiezaConBearer h) then
        .error (enviarRespuestaError "Token no proporcionado" "TOKEN_FALTANTE" none 401)
      else
        match verify (tokenDeHeader h) with
        | none => .error (enviarRespuestaError "Token inválido o expirado" "TOKEN_INVALIDO" none 401)
        | some usuarioId =>
            match s.usuarios.find? (fun u => u.id == usuarioId) with
            | none =>
                .error (enviarRespuestaError "Usuario no encontrado" "USUARIO_INVALIDO" none 401)
            | some usuario => .ok usuario

/-- `esAdmin` (`esAdmin.middleware.ts` lines 24–42): no attached user
answers 401 `USUARIO_NO_AUTENTICADO`; a non-admin role answers 403
`ACCESO_NO_AUTORIZADO`; an admin passes. -/
def esAdmin (usuario : Option UsuarioDoc) : Except Envelope Unit :=
  match usuario with
  | none => .error (enviarRespuestaError "Usuario no autenticado" "USUARIO_NO_AUTENTICADO" none 401)
  | some u =>
      if u.rol != Rol.admin then
        .error (enviarRespuestaError "Acceso restringido a administradores" "ACCESO_NO_AUTORIZADO" none 403)
      else
        .ok ()

/-- The handler body of `GET /api/admin/test` (`admin.ruta.ts`). -/
def respuestaAdminTest : Envelope :=
  { exito := true
    mensaje := "Acceso autorizado. ¡Sos un administrador!"
    datos := some Datos.vacio
    codigo := none
    errores := none
    status := 200 }

/-- The admin-gated route `GET /api/admin/test`: `autenticarJWT`, then
`esAdmin` on the attached user, then the handler. -/
def rutaAdminTest (verify : String → Option Nat) (authHeader : Option String) (s : Store) :
    Envelope :=
  match autenticarJWT verify authHeader s with
  | .error e => e
  | .ok usuario =>
      match esAdmin (some usuario) with
      | .error e => e
      | .ok _ => respuestaAdminTest

/-- The `usuario.id` carried by a response payload, when present. -/
def idUsuarioDe (e : Envelope) : Option Nat :=
  match e.datos with
  | some (Datos.loginDatos _ _ uid _) => some uid
  | some (Datos.masterDatos _ _ uid _ _) => some uid
  | _ => none

/-- The `rol` carried by a response payload, when present. -/
def rolDe (e : Envelope) : Option Rol :=
  match e.datos with
  | some (Datos.masterDatos _ _ _ _ rol) => some rol
  | _ => none

/-- The `refreshToken` string carried by a response payload, when present. -/
def refreshTokenDe (e : Envelope) : Option String :=
  match e.datos with
  | some (Datos.loginDatos _ rt _ _) => some rt
  | some (Datos.refreshDatos _ rt) => some rt
  | some (Datos.masterDatos _ rt _ _ _) => some rt
  | _ => none

/-- The identity a successful `accesoMaestro` call on state `s` resolves:
the stored user for the admin phone, or the id the created admin user
receives. -/
def resolvedAdminId (cfg : Config) (s : Store) : Nat :=
  match s.usuarios.find? (fun u => u.telefono == cfg.telefonoAdmin) with
  | some u => u.id
  | none => s.nextId

/-- Empty store, used by concrete witness instantiations. -/
def tiendaVacia : Store :=
  { codigos := [], usuarios := [], refreshTokens := [], nextId := 0 }

/-- Store holding one pending verification row, for witnesses. -/
def tiendaConCodigo : Store :=
  { codigos := [{ id := 0, telefono := "+34600111222", codigo := "482913" }]
    usuarios := []
    refreshTokens := []
    nextId := 1 }

/-- Store holding one user and one refresh session, for witnesses. -/
def tiendaConSesion : Store :=
  { codigos := []
    usuarios := [{ id := 0, telefono := "+34600111222", estaVerificado := false, rol := Rol.usuario }]
    refreshTokens := [{ id := 1, token := "token-original-abc", usuarioId := 0 }]
    nextId := 2 }

/-- Concrete configuration used by witnesses and counterexamples. -/
def cfgDemo : Config :=
  { codigoMaestro := "supersecreto", telefonoAdmin := "+34600000001" }

/-- Store where the admin phone is already taken by a standard (non-admin)
user — reachable by calling `loginUsuario` with `TELEFONO_ADMIN`. -/
def tiendaAdminUsuario : Store :=
  { codigos := []
    usuarios := [{ id := 0, telefono := "+34600000001", estaVerificado := false, rol := Rol.usuario }]
    refreshTokens := []
    nextId := 1 }

/-- Store holding an actual admin identity, for access-guard witnesses. -/
def tiendaAdminReal : Store :=
  { codigos := []
    usuarios := [{ id := 0, telefono := "+34600000001", estaVerificado := false, rol := Rol.admin }]
    refreshTokens := []
    nextId := 1 }

/-- Concrete `jwt.verify` oracle for witnesses: accepts exactly the token
`token-bueno` with embedded user id 0. -/
def oraculoVerify : String → Option Nat :=
  fun t => if t == "token-bueno" then some 0 else none

/-! ## Helper lemmas about the list-level store operations -/

/-- If `x` satisfies `q`, `q` is stronger than the filter `p`, and some
element of `l` matches `p`, then after replacing the first `p`-match by `x`
the first `q`-match is `x`. -/
theorem find?_reemplazarPrimero (p q : α → Bool) (x : α)
    (hq : q x = true) (himp : ∀ a, q a = true → p a = true) :
    ∀ l : List α, (l.find? p).isSome = true →
      (reemplazarPrimero p x l).find? q = some x := by
  intro l
  induction l with
  | nil => intro h; simp at h
  | cons a l ih =>
      intro h
      by_cases hpa : p a = true
      · simp [reemplazarPrimero, hpa, List.find?_cons_of_pos, hq]
      · have hqa : ¬ q a = true := fun hqa => hpa (himp a hqa)
        have h2 : (l.find? p).isSome = true := by
          rwa [List.find?_cons_of_neg _ hpa] at h
        rw [reemplazarPrimero, if_neg hpa]
        rw [List.find?_cons_of_neg _ hqa]
        exact ih h2

/-- If no element of `l` matches `p` and `q` is stronger than `p`, then the
first `q`-match of `l ++ [x]` is `x` whenever `x` matches `q`. -/
theorem find?_append_singleton (p q : α → Bool) (x : α) (l : List α)
    (hq : q x = true) (himp : ∀ a, q a = true → p a = true)
    (h : l.find? p = none) : (l ++ [x]).find? q = some x := by
  have hnone : l.find? q = none := by
    rw [List.find?_eq_none] at h ⊢
    intro a ha hqa
    exact h a ha (himp a hqa)
  rw [List.find?_append, hnone]
  simp [List.find?_cons_of_pos, hq]

/-- After `upsertCodigo tel codigo`, a row matching `{telefono, codigo}`
exactly is present. -/
theorem contieneCodigo_upsert (tel codigo : String) (s : Store) :
    contieneCodigo tel codigo (upsertCodigo tel codigo s) = true := by
  have himp : ∀ d : CodigoDoc, (d.telefono == tel && d.codigo == codigo) = true →
      (d.telefono == tel) = true := by
    intro d h
    rw [Bool.and_eq_true] at h
    exact h.1
  unfold contieneCodigo upsertCodigo
  cases h : s.codigos.find? (fun d => d.telefono == tel) with
  | some d =>
      simp only []
      rw [find?_reemplazarPrimero _ _ _ (by simp) himp _ (by rw [h]; rfl)]
      rfl
  | none =>
      simp only []
      rw [find?_append_singleton _ _ _ _ (by simp) himp h]
      rfl

/-! ## Claims -/

/-- C10: Login is atomic on credential failure: when no pending code row
exists for the phone, or the stored code differs from the submitted one,
`loginUsuario` answers `CODIGO_INVALIDO` and returns the store unchanged —
no Identity created, no RefreshSession created, and the pending row (if
any) left in place. -/
theorem loginUsuario_atomico_en_fallo (tel codigo jwt tok : String) (s : Store)
    (hfail : s.codigos.find? (fun d => d.telefono == tel) = none ∨
      ∃ d, s.codigos.find? (fun d2 => d2.telefono == tel) = some d ∧ d.codigo ≠ codigo) :
    loginUsuario tel codigo jwt tok s =
      (enviarRespuestaError "Código inválido o expirado" "CODIGO_INVALIDO" none 400, s) := by
  rcases hfail with h | ⟨d, hd, hne⟩
  · unfold loginUsuario
    rw [h]
  · unfold loginUsuario
    rw [hd]
    simp only [bne_iff_ne, ne_eq, hne, not_false_eq_true, if_true]

/-- C10 witness: a concrete failing login against a store holding a code
row leaves the store intact. -/
theorem loginUsuario_atomico_en_fallo_witness :
    loginUsuario "+34600111222" "000000" "jwt-x" "rt-x" tiendaConCodigo =
      (enviarRespuestaError "Código inválido o expirado" "CODIGO_INVALIDO" none 400,
       tiendaConCodigo) := by
  exact loginUsuario_atomico_en_fallo "+34600111222" "000000" "jwt-x" "rt-x" tiendaConCodigo
    (Or.inr ⟨{ id := 0, telefono := "+34600111222", codigo := "482913" }, by decide, by decide⟩)

/-- C6: `verificarUsuario` never reads or writes the Identity store (nor the
session store, nor the id supply): its only durable effect is deleting the
matched pending-verification row. -/
theorem verificarUsuario_no_toca_identidades (tel codigo : String) (s : Store) :
    (verificarUsuario tel codigo s).2.usuarios = s.usuarios ∧
    (verificarUsuario tel codigo s).2.refreshTokens = s.refreshTokens ∧
    (verificarUsuario tel codigo s).2.nextId = s.nextId ∧
    ((verificarUsuario tel codigo s).2.codigos = s.codigos ∨
      ∃ d, s.codigos.find? (fun x => x.telefono == tel && x.codigo == codigo) = some d ∧
        (verificarUsuario tel codigo s).2.codigos = s.codigos.eraseP (fun x => x.id == d.id)) := by
  unfold verificarUsuario
  cases h : s.codigos.find? (fun x => x.telefono == tel && x.codigo == codigo) with
  | none => exact ⟨rfl, rfl, rfl, Or.inl rfl⟩
  | some d => exact ⟨rfl, rfl, rfl, Or.inr ⟨d, rfl, rfl⟩⟩

/-- C4: in `registrarUsuario` the upsert of the code strictly precedes the
SMS attempt: the trace is exactly the persist event followed by the send
attempt, the store in which any send attempt executes already holds the
`(telefono, codigo)` row, and when the notifier throws the request fails
while the code row stays persisted. -/
theorem registrarUsuario_persiste_antes_de_enviar (tel codigo : String) (smsOk : Bool) (s : Store) :
    (registrarUsuario tel codigo smsOk s).1 =
      [(Evento.persistirCodigo tel codigo, s),
       (Evento.intentoSMS tel ("Tu código de verificación es: " ++ codigo),
        upsertCodigo tel codigo s)] ∧
    (∀ ev ∈ (registrarUsuario tel codigo smsOk s).1,
      (∃ m, ev.1 = Evento.intentoSMS tel m) → contieneCodigo tel codigo ev.2 = true) ∧
    (smsOk = false →
      (registrarUsuario tel codigo smsOk s).2.1.exito = false ∧
      contieneCodigo tel codigo (registrarUsuario tel codigo smsOk s).2.2 = true) := by
  refine ⟨?_, ?_, ?_⟩
  · unfold registrarUsuario
    cases smsOk <;> rfl
  · intro ev hev hsms
    have htr : (registrarUsuario tel codigo smsOk s).1 =
        [(Evento.persistirCodigo tel codigo, s),
         (Evento.intentoSMS tel ("Tu código de verificación es: " ++ codigo),
          upsertCodigo tel codigo s)] := by
      unfold registrarUsuario
      cases smsOk <;> rfl
    rw [htr] at hev
    simp only [List.mem_cons, List.not_mem_nil, or_false] at hev
    rcases hev with hev | hev
    · rcases hsms with ⟨m, hm⟩
      rw [hev] at hm
      exact absurd hm (by simp)
    · rw [hev]
      exact contieneCodigo_upsert tel codigo s
  · intro hsms
    subst hsms
    constructor
    · unfold registrarUsuario
      rfl
    · have h2 : (registrarUsuario tel codigo false s).2.2 = upsertCodigo tel codigo s := by
        unfold registrarUsuario
        rfl
      rw [h2]
      exact contieneCodigo_upsert tel codigo s

/-- C4 witness: a concrete registration whose SMS send throws still leaves
the code persisted, with the persist event first in the trace. -/
theorem registrarUsuario_persiste_antes_de_enviar_witness :
    (registrarUsuario "+34600111222" "482913" false tiendaVacia).2.1.exito = false ∧
    contieneCodigo "+34600111222" "482913"
      (registrarUsuario "+34600111222" "482913" false tiendaVacia).2.2 = true ∧
    (registrarUsuario "+34600111222" "482913" false tiendaVacia).1 =
      [(Evento.persistirCodigo "+34600111222" "482913", tiendaVacia),
       (Evento.intentoSMS "+34600111222" "Tu código de verificación es: 482913",
        upsertCodigo "+34600111222" "482913" tiendaVacia)] := by
  have h := registrarUsuario_persiste_antes_de_enviar "+34600111222" "482913" false tiendaVacia
  exact ⟨(h.2.2 rfl).1, (h.2.2 rfl).2, by rw [h.1]; decide⟩

/-- C3: with a matching pending code, `loginUsuario` creates exactly one
new Identity when none exists for the phone (appending it with the fresh
id), and creates none when one exists, reusing the stored Identity in the
payload. -/
theorem loginUsuario_identidad_exacta (tel codigo jwt tok : String) (s : Store) (d : CodigoDoc)
    (hd : s.codigos.find? (fun x => x.telefono == tel) = some d)
    (hc : d.codigo = codigo) :
    (s.usuarios.find? (fun u => u.telefono == tel) = none →
      (loginUsuario tel codigo jwt tok s).2.usuarios = s.usuarios ++
        [{ id := s.nextId, telefono := tel, estaVerificado := false, rol := Rol.usuario }] ∧
      (loginUsuario tel codigo jwt tok s).2.usuarios.length = s.usuarios.length + 1) ∧
    (∀ u, s.usuarios.find? (fun x => x.telefono == tel) = some u →
      (loginUsuario tel codigo jwt tok s).2.usuarios = s.usuarios ∧
      idUsuarioDe (loginUsuario tel codigo jwt tok s).1 = some u.id) := by
  subst hc
  constructor
  · intro hu
    simp [loginUsuario, hd, hu]
  · intro u hu
    simp [loginUsuario, hd, hu, idUsuarioDe, enviarRespuestaExitosa]

/-- C3 witness: a concrete login against a store with a code row and no
users creates exactly the one fresh Identity. -/
theorem loginUsuario_identidad_exacta_witness :
    (loginUsuario "+34600111222" "482913" "jwt-1" "rt-1" tiendaConCodigo).2.usuarios =
      tiendaConCodigo.usuarios ++
        [{ id := 1, telefono := "+34600111222", estaVerificado := false, rol := Rol.usuario }] ∧
    (loginUsuario "+34600111222" "482913" "jwt-1" "rt-1" tiendaConCodigo).2.usuarios.length =
      tiendaConCodigo.usuarios.length + 1 :=
  (loginUsuario_identidad_exacta "+34600111222" "482913" "jwt-1" "rt-1" tiendaConCodigo
    { id := 0, telefono := "+34600111222", codigo := "482913" } (by decide) (by decide)).1
    (by decide)

/-- C7 (amended): a successful `accesoMaestro` call resolves the
admin-phone Identity; when none exists it creates one whose role is
`admin`; when one already exists the stored Identity is reused unchanged
and the payload carries its stored role — which is not forced to `admin`. -/
theorem accesoMaestro_rol_resuelto (cfg : Config) (codigo jwt tok : String) (s : Store)
    (hcod : codigo = cfg.codigoMaestro) :
    (accesoMaestro cfg codigo jwt tok s).1.exito = true ∧
    (s.usuarios.find? (fun u => u.telefono == cfg.telefonoAdmin) = none →
      rolDe (accesoMaestro cfg codigo jwt tok s).1 = some Rol.admin ∧
      (accesoMaestro cfg codigo jwt tok s).2.usuarios.find?
          (fun u => u.telefono == cfg.telefonoAdmin) =
        some { id := s.nextId, telefono := cfg.telefonoAdmin, estaVerificado := false,
               rol := Rol.admin }) ∧
    (∀ u, s.usuarios.find? (fun x => x.telefono == cfg.telefonoAdmin) = some u →
      rolDe (accesoMaestro cfg codigo jwt tok s).1 = some u.rol ∧
      (accesoMaestro cfg codigo jwt tok s).2.usuarios = s.usuarios) := by
  subst hcod
  refine ⟨?_, ?_, ?_⟩
  · unfold accesoMaestro
    rw [if_neg (by simp)]
    cases h : s.usuarios.find? (fun u => u.telefono == cfg.telefonoAdmin) <;> rfl
  · intro hu
    unfold accesoMaestro
    rw [if_neg (by simp), hu]
    refine ⟨rfl, ?_⟩
    exact find?_append_singleton _ _ _ _ (by simp) (fun a h => h) hu
  · intro u hu
    unfold accesoMaestro
    rw [if_neg (by simp), hu]
    exact ⟨rfl, rfl⟩

/-- C7 witness: creating the admin identity from an empty store yields role
`admin` in payload and store. -/
theorem accesoMaestro_rol_resuelto_witness :
    rolDe (accesoMaestro cfgDemo "supersecreto" "jwt-m" "rt-m" tiendaVacia).1 = some Rol.admin ∧
    (accesoMaestro cfgDemo "supersecreto" "jwt-m" "rt-m" tiendaVacia).2.usuarios.find?
        (fun u => u.telefono == cfgDemo.telefonoAdmin) =
      some { id := 0, telefono := cfgDemo.telefonoAdmin, estaVerificado := false,
             rol := Rol.admin } :=
  (accesoMaestro_rol_resuelto cfgDemo "supersecreto" "jwt-m" "rt-m" tiendaVacia (by decide)).2.1
    (by decide)

/-- C7 counterexample: when a standard user already holds the admin phone
(reachable via `loginUsuario` with `TELEFONO_ADMIN`), a successful
`accesoMaestro` call returns and keeps role `usuario`, not `admin`. -/
theorem accesoMaestro_rol_counterexample :
    (accesoMaestro cfgDemo "supersecreto" "jwt-m" "rt-m" tiendaAdminUsuario).1.exito = true ∧
    rolDe (accesoMaestro cfgDemo "supersecreto" "jwt-m" "rt-m" tiendaAdminUsuario).1 =
      some Rol.usuario ∧
    (accesoMaestro cfgDemo "supersecreto" "jwt-m" "rt-m" tiendaAdminUsuario).2.usuarios =
      [{ id := 0, telefono := "+34600000001", estaVerificado := false, rol := Rol.usuario }] := by
  decide

/-- C8 counterexample: the 404 middleware and the global error middleware
in `app.ts` produce `exito = false` responses with no `codigo` field. -/
theorem respuestas_error_codigo_counterexample :
    manejador404.exito = false ∧ manejador404.codigo = none ∧
    (manejadorErroresGlobal none none).exito = false ∧
    (manejadorErroresGlobal none none).codigo = none := by
  decide

/-- C8 (amended): every failure response built through
`enviarRespuestaError` — which covers every controller and middleware
failure path of the engine and the guards — carries a machine-readable
`codigo`; the `app.ts` 404 and global error middlewares are the exceptions,
emitting `exito = false` without `codigo`. -/
theorem respuestas_error_llevan_codigo :
    (∀ m c err st, (enviarRespuestaError m c err st).exito = false ∧
      (enviarRespuestaError m c err st).codigo = some c) ∧
    (∀ tel codigo smsOk s, (registrarUsuario tel codigo smsOk s).2.1.exito = false →
      ((registrarUsuario tel codigo smsOk s).2.1.codigo).isSome = true) ∧
    (∀ tel codigo s, (verificarUsuario tel codigo s).1.exito = false →
      ((verificarUsuario tel codigo s).1.codigo).isSome = true) ∧
    (∀ tel codigo jwt tok s, (loginUsuario tel codigo jwt tok s).1.exito = false →
      ((loginUsuario tel codigo jwt tok s).1.codigo).isSome = true) ∧
    (∀ rt jwt tok s, (refrescarToken rt jwt tok s).1.exito = false →
      ((refrescarToken rt jwt tok s).1.codigo).isSome = true) ∧
    (∀ cfg codigo jwt tok s, (accesoMaestro cfg codigo jwt tok s).1.exito = false →
      ((accesoMaestro cfg codigo jwt tok s).1.codigo).isSome = true) ∧
    (∀ verify header s, (rutaAdminTest verify header s).exito = false →
      ((rutaAdminTest verify header s).codigo).isSome = true) := by
  refine ⟨?_, ?_, ?_, ?_, ?_, ?_, ?_⟩
  · intro m c err st
    exact ⟨rfl, rfl⟩
  · intro tel codigo smsOk s
    cases smsOk with
    | false => intro h; rfl
    | true => intro h; simp [registrarUsuario, enviarRespuestaExitosa] at h
  · intro tel codigo s
    cases h : s.codigos.find? (fun d => d.telefono == tel && d.codigo == codigo) with
    | none => intro h2; simp [verificarUsuario, h, enviarRespuestaError]
    | some d => intro h2; simp [verificarUsuario, h, enviarRespuestaExitosa] at h2
  · intro tel codigo jwt tok s
    cases h : s.codigos.find? (fun d => d.telefono == tel) with
    | none => intro h2; simp [loginUsuario, h, enviarRespuestaError]
    | some d =>
        by_cases hc : (d.codigo != codigo) = true
        · intro h2; simp [loginUsuario, h, hc, enviarRespuestaError]
        · intro h2
          exfalso
          simp [loginUsuario, h, hc, enviarRespuestaExitosa] at h2
  · intro rt jwt tok s
    cases h : s.refreshTokens.find? (fun r => r.token == rt) with
    | none => intro h2; simp [refrescarToken, h, enviarRespuestaError]
    | some d =>
        cases h3 : s.usuarios.find? (fun u => u.id == d.usuarioId) with
        | none => intro h2; simp [refrescarToken, h, h3, enviarRespuestaError]
        | some u =>
            intro h2
            exfalso
            simp [refrescarToken, h, h3, enviarRespuestaExitosa] at h2
  · intro cfg codigo jwt tok s
    by_cases hc : (codigo != cfg.codigoMaestro) = true
    · intro h2; simp [accesoMaestro, hc, enviarRespuestaError]
    · cases h : s.usuarios.find? (fun u => u.telefono == cfg.telefonoAdmin) with
      | none =>
          intro h2
          exfalso
          simp [accesoMaestro, hc, h, enviarRespuestaExitosa] at h2
      | some u =>
          intro h2
          exfalso
          simp [accesoMaestro, hc, h, enviarRespuestaExitosa] at h2
  · intro verify header s
    cases header with
    | none => intro h2; simp [rutaAdminTest, autenticarJWT, enviarRespuestaError]
    | some hh =>
        by_cases hB : (empiezaConBearer hh) = true
        · cases hv : verify (tokenDeHeader hh) with
          | none =>
              intro h2
              simp [rutaAdminTest, autenticarJWT, hB, hv, enviarRespuestaError]
          | some uid =>
              cases hf : s.usuarios.find? (fun u => u.id == uid) with
              | none =>
                  intro h2
                  simp [rutaAdminTest, autenticarJWT, hB, hv, hf, enviarRespuestaError]
              | some u =>
                  by_cases hr : (u.rol != Rol.admin) = true
                  · intro h2
                    simp [rutaAdminTest, autenticarJWT, esAdmin, hB, hv, hf, hr,
                      enviarRespuestaError]
                  · intro h2
                    exfalso
                    simp [rutaAdminTest, autenticarJWT, esAdmin, hB, hv, hf, hr,
                      respuestaAdminTest] at h2
        · intro h2
          simp [rutaAdminTest, autenticarJWT, hB, enviarRespuestaError]

/-- C8 witness: concrete engine failures carry a `codigo`. -/
theorem respuestas_error_llevan_codigo_witness :
    ((verificarUsuario "+34600111222" "482913" tiendaVacia).1.codigo).isSome = true ∧
    ((rutaAdminTest oraculoVerify none tiendaVacia).codigo).isSome = true := by
  have h := respuestas_error_llevan_codigo
  exact ⟨h.2.2.1 "+34600111222" "482913" tiendaVacia (by decide),
         h.2.2.2.2.2.2 oraculoVerify none tiendaVacia (by decide)⟩

/-- C9: on the admin-gated route, a missing header, a header without the
`Bearer ` prefix, a token the verifier rejects, or a verified token whose
embedded user id resolves to no Identity all answer 401; a resolved
non-admin Identity answers 403; and only a resolved admin Identity reaches
the handler. -/
theorem rutaAdminTest_guard (verify : String → Option Nat) (header : Option String) (s : Store) :
    (header = none → (rutaAdminTest verify header s).status = 401) ∧
    (∀ h, header = some h → empiezaConBearer h = false →
      (rutaAdminTest verify header s).status = 401) ∧
    (∀ h, header = some h → empiezaConBearer h = true → verify (tokenDeHeader h) = none →
      (rutaAdminTest verify header s).status = 401) ∧
    (∀ h uid, header = some h → empiezaConBearer h = true →
      verify (tokenDeHeader h) = some uid →
      s.usuarios.find? (fun u => u.id == uid) = none →
      (rutaAdminTest verify header s).status = 401) ∧
    (∀ h uid u, header = some h → empiezaConBearer h = true →
      verify (tokenDeHeader h) = some uid →
      s.usuarios.find? (fun x => x.id == uid) = some u → u.rol ≠ Rol.admin →
      (rutaAdminTest verify header s).status = 403) ∧
    (∀ h uid u, header = some h → empiezaConBearer h = true →
      verify (tokenDeHeader h) = some uid →
      s.usuarios.find? (fun x => x.id == uid) = some u → u.rol = Rol.admin →
      rutaAdminTest verify header s = respuestaAdminTest) := by
  refine ⟨?_, ?_, ?_, ?_, ?_, ?_⟩
  · intro hh
    subst hh
    simp [rutaAdminTest, autenticarJWT, enviarRespuestaError]
  · intro h hh hB
    subst hh
    simp [rutaAdminTest, autenticarJWT, hB, enviarRespuestaError]
  · intro h hh hB hv
    subst hh
    simp [rutaAdminTest, autenticarJWT, hB, hv, enviarRespuestaError]
  · intro h uid hh hB hv hf
    subst hh
    simp [rutaAdminTest, autenticarJWT, hB, hv, hf, enviarRespuestaError]
  · intro h uid u hh hB hv hf hr
    subst hh
    simp [rutaAdminTest, autenticarJWT, esAdmin, hB, hv, hf, hr, enviarRespuestaError]
  · intro h uid u hh hB hv hf hr
    subst hh
    simp [rutaAdminTest, autenticarJWT, esAdmin, hB, hv, hf, hr]

/-- C9 witness: concrete requests exercising each guard outcome — missing
header, missing prefix, rejected token, non-admin identity, and the admin
identity reaching the handler. -/
theorem rutaAdminTest_guard_witness :
    (rutaAdminTest oraculoVerify none tiendaAdminReal).status = 401 ∧
    (rutaAdminTest oraculoVerify (some "token-bueno") tiendaAdminReal).status = 401 ∧
    (rutaAdminTest oraculoVerify (some "Bearer token-malo") tiendaAdminReal).status = 401 ∧
    (rutaAdminTest oraculoVerify (some "Bearer token-bueno") tiendaVacia).status = 401 ∧
    (rutaAdminTest oraculoVerify (some "Bearer token-bueno") tiendaAdminUsuario).status = 403 ∧
    rutaAdminTest oraculoVerify (some "Bearer token-bueno") tiendaAdminReal =
      respuestaAdminTest := by
  refine ⟨?_, ?_, ?_, ?_, ?_, ?_⟩
  · exact (rutaAdminTest_guard oraculoVerify none tiendaAdminReal).1 rfl
  · exact (rutaAdminTest_guard oraculoVerify (some "token-bueno") tiendaAdminReal).2.1
      "token-bueno" rfl (by decide)
  · exact (rutaAdminTest_guard oraculoVerify (some "Bearer token-malo") tiendaAdminReal).2.2.1
      "Bearer token-malo" rfl (by decide) (by decide)
  · exact (rutaAdminTest_guard oraculoVerify (some "Bearer token-bueno") tiendaVacia).2.2.2.1
      "Bearer token-bueno" 0 rfl (by decide) (by decide) (by decide)
  · exact (rutaAdminTest_guard oraculoVerify (some "Bearer token-bueno")
      tiendaAdminUsuario).2.2.2.2.1 "Bearer token-bueno" 0
      { id := 0, telefono := "+34600000001", estaVerificado := false, rol := Rol.usuario }
      rfl (by decide) (by decide) (by decide) (by decide)
  · exact (rutaAdminTest_guard oraculoVerify (some "Bearer token-bueno")
      tiendaAdminReal).2.2.2.2.2 "Bearer token-bueno" 0
      { id := 0, telefono := "+34600000001", estaVerificado := false, rol := Rol.admin }
      rfl (by decide) (by decide) (by decide) (by decide)

/-- After deleting (by `_id`) the first session found for token `t` from a
collection with unique ids and at most one row for `t`, no row for `t`
remains. -/
theorem eraseP_find_none (t : String) :
    ∀ (l : List RefreshDoc) (d : RefreshDoc),
      l.find? (fun r => r.token == t) = some d →
      l.countP (fun r => r.token == t) ≤ 1 →
      (l.map (fun r => r.id)).Nodup →
      ∀ x ∈ l.eraseP (fun r => r.id == d.id), (x.token == t) = false := by
  intro l
  induction l with
  | nil => intro d hd; simp at hd
  | cons a l ih =>
      intro d hd hcount hnodup
      by_cases hpa : (a.token == t) = true
      · simp only [List.find?_cons, hpa] at hd
        injection hd with hd
        subst hd
        rw [List.eraseP_cons_of_pos (by simp)]
        rw [List.countP_cons, if_pos hpa] at hcount
        have h0 : l.countP (fun r => r.token == t) = 0 := by omega
        intro x hx
        have hnot := (List.countP_eq_zero.mp h0) x hx
        simpa using hnot
      · have hpa2 : (a.token == t) = false := Bool.eq_false_iff.mpr hpa
        simp only [List.find?_cons, hpa2] at hd
        have hdl : d ∈ l := List.mem_of_find?_eq_some hd
        simp only [List.map_cons] at hnodup
        rw [List.nodup_cons] at hnodup
        have hidne : a.id ≠ d.id := by
          intro heq
          exact hnodup.1 (heq ▸ List.mem_map_of_mem (fun r => r.id) hdl)
        rw [List.eraseP_cons_of_neg (by simp [hidne])]
        intro x hx
        rcases List.mem_cons.mp hx with hx | hx
        · subst hx
          exact Bool.eq_false_iff.mpr hpa
        · rw [List.countP_cons, if_neg hpa] at hcount
          exact ih d hd (by omega) hnodup.2 x hx

/-- C1: refresh rotation is single-use. From a store whose session
collection holds a (unique-token, unique-id) row for `t` whose user exists,
the first `refrescarToken t` call succeeds, returns the freshly generated
token (distinct from `t`), and deletes the session for `t`; an immediately
following call with `t` fails with `REFRESH_TOKEN_INVALIDO` and changes
nothing. The freshness of the generated token (`tok1 ≠ t`) is the CSPRNG
guarantee of the external `generarRefreshToken`. -/
theorem refrescarToken_un_solo_uso (t jwt1 tok1 jwt2 tok2 : String) (s : Store)
    (d : RefreshDoc) (u : UsuarioDoc)
    (hd : s.refreshTokens.find? (fun r => r.token == t) = some d)
    (hu : s.usuarios.find? (fun x => x.id == d.usuarioId) = some u)
    (huniq : s.refreshTokens.countP (fun r => r.token == t) ≤ 1)
    (hids : (s.refreshTokens.map (fun r => r.id)).Nodup)
    (hfresh : tok1 ≠ t) :
    (refrescarToken t jwt1 tok1 s).1.exito = true ∧
    refreshTokenDe (refrescarToken t jwt1 tok1 s).1 = some tok1 ∧
    tok1 ≠ t ∧
    (refrescarToken t jwt1 tok1 s).2.refreshTokens.find? (fun r => r.token == t) = none ∧
    refrescarToken t jwt2 tok2 (refrescarToken t jwt1 tok1 s).2 =
      (enviarRespuestaError "Refresh token inválido o caducado" "REFRESH_TOKEN_INVALIDO" none 400,
       (refrescarToken t jwt1 tok1 s).2) := by
  have hres : (refrescarToken t jwt1 tok1 s).2.refreshTokens =
      s.refreshTokens.eraseP (fun r => r.id == d.id) ++
        [{ id := s.nextId, token := tok1, usuarioId := u.id }] := by
    simp [refrescarToken, hd, hu]
  have hnone : (refrescarToken t jwt1 tok1 s).2.refreshTokens.find?
      (fun r => r.token == t) = none := by
    rw [hres, List.find?_eq_none]
    intro x hx
    rcases List.mem_append.mp hx with hx | hx
    · have hx2 := eraseP_find_none t s.refreshTokens d hd huniq hids x hx
      simp [hx2]
    · simp only [List.mem_singleton] at hx
      subst hx
      simp [hfresh]
  refine ⟨?_, ?_, hfresh, hnone, ?_⟩
  · simp [refrescarToken, hd, hu, enviarRespuestaExitosa]
  · simp [refrescarToken, hd, hu, enviarRespuestaExitosa, refreshTokenDe]
  · generalize hs2 : (refrescarToken t jwt1 tok1 s).2 = s2 at hnone ⊢
    cases h2 : s2.refreshTokens.find? (fun r => r.token == t) with
    | none => simp [refrescarToken, h2]
    | some y => rw [h2] at hnone; cases hnone

/-- C1 witness: a concrete rotation — the first refresh succeeds with a new
token and the second use of the original token is rejected. -/
theorem refrescarToken_un_solo_uso_witness :
    (refrescarToken "token-original-abc" "jwt-1" "token-nuevo-xyz" tiendaConSesion).1.exito =
      true ∧
    refreshTokenDe
        (refrescarToken "token-original-abc" "jwt-1" "token-nuevo-xyz" tiendaConSesion).1 =
      some "token-nuevo-xyz" ∧
    "token-nuevo-xyz" ≠ "token-original-abc" ∧
    (refrescarToken "token-original-abc" "jwt-1" "token-nuevo-xyz"
        tiendaConSesion).2.refreshTokens.find?
        (fun r => r.token == "token-original-abc") = none ∧
    refrescarToken "token-original-abc" "jwt-2" "token-nuevo-2"
        (refrescarToken "token-original-abc" "jwt-1" "token-nuevo-xyz" tiendaConSesion).2 =
      (enviarRespuestaError "Refresh token inválido o caducado" "REFRESH_TOKEN_INVALIDO" none 400,
       (refrescarToken "token-original-abc" "jwt-1" "token-nuevo-xyz" tiendaConSesion).2) :=
  refrescarToken_un_solo_uso "token-original-abc" "jwt-1" "token-nuevo-xyz" "jwt-2"
    "token-nuevo-2" tiendaConSesion
    { id := 1, token := "token-original-abc", usuarioId := 0 }
    { id := 0, telefono := "+34600111222", estaVerificado := false, rol := Rol.usuario }
    (by decide) (by decide) (by decide) (by decide) (by decide)

/-- `reemplazarPrimero` decomposition: when `find? p l = some d`, the list
splits as `l1 ++ d :: l2` with `l1` free of `p`-matches, and the
replacement yields `l1 ++ x :: l2`. -/
theorem reemplazarPrimero_decomp (p : α → Bool) (x : α) :
    ∀ (l : List α) (d : α), l.find? p = some d →
      ∃ l1 l2, l = l1 ++ d :: l2 ∧ (∀ a ∈ l1, p a = false) ∧
        reemplazarPrimero p x l = l1 ++ x :: l2 := by
  intro l
  induction l with
  | nil => intro d hd; simp at hd
  | cons a l ih =>
      intro d hd
      by_cases hpa : p a = true
      · simp only [List.find?_cons, hpa] at hd
        injection hd with hd
        subst hd
        exact ⟨[], l, rfl, by simp, by simp [reemplazarPrimero, hpa]⟩
      · have hpa2 : p a = false := Bool.eq_false_iff.mpr hpa
        simp only [List.find?_cons, hpa2] at hd
        rcases ih d hd with ⟨l1, l2, hl, hl1, hr⟩
        refine ⟨a :: l1, l2, by simp [hl], ?_, ?_⟩
        · intro b hb
          rcases List.mem_cons.mp hb with hb | hb
          · subst hb; exact hpa2
          · exact hl1 b hb
        · simp [reemplazarPrimero, hpa2, hr]

/-- C5: after `registrarUsuario` stores code `c` for phone `p` (over a
store with at most one code row per phone, unique row ids bounded by the
id supply — the reachable-store invariants), `verificarUsuario p c`
succeeds exactly once: the first call answers success and deletes the
matched row, and the second call answers `CODIGO_INVALIDO_O_EXPIRADO`
leaving the store unchanged. -/
theorem registroVerificacion_un_solo_uso (p c : String) (smsOk : Bool) (s : Store)
    (hcount : s.codigos.countP (fun d => d.telefono == p) ≤ 1)
    (hids : (s.codigos.map (fun d => d.id)).Nodup)
    (hbound : ∀ d ∈ s.codigos, d.id < s.nextId) :
    (verificarUsuario p c (registrarUsuario p c smsOk s).2.2).1 =
      enviarRespuestaExitosa "Código verificado correctamente" Datos.vacio 200 ∧
    verificarUsuario p c (verificarUsuario p c (registrarUsuario p c smsOk s).2.2).2 =
      (enviarRespuestaError "Código incorrecto o expirado" "CODIGO_INVALIDO_O_EXPIRADO" none 400,
       (verificarUsuario p c (registrarUsuario p c smsOk s).2.2).2) := by
  have hreg : (registrarUsuario p c smsOk s).2.2 = upsertCodigo p c s := by
    cases smsOk <;> rfl
  rw [hreg]
  have himp : ∀ d : CodigoDoc, (d.telefono == p && d.codigo == c) = true →
      (d.telefono == p) = true := by
    intro d h
    rw [Bool.and_eq_true] at h
    exact h.1
  cases hf : s.codigos.find? (fun d => d.telefono == p) with
  | none =>
      have hup : (upsertCodigo p c s).codigos =
          s.codigos ++ [{ id := s.nextId, telefono := p, codigo := c }] := by
        simp [upsertCodigo, hf]
      have hall : ∀ a ∈ s.codigos, (a.telefono == p) = false := by
        intro a ha
        exact Bool.eq_false_iff.mpr (List.find?_eq_none.mp hf a ha)
      have hfind : (upsertCodigo p c s).codigos.find?
          (fun d => d.telefono == p && d.codigo == c) =
          some { id := s.nextId, telefono := p, codigo := c } := by
        rw [hup]
        exact find?_append_singleton _ _ _ _ (by simp) himp hf
      have hs2cod : (verificarUsuario p c (upsertCodigo p c s)).2.codigos = s.codigos := by
        have hstep : (verificarUsuario p c (upsertCodigo p c s)).2.codigos =
            (upsertCodigo p c s).codigos.eraseP (fun d => d.id == s.nextId) := by
          simp [verificarUsuario, hfind]
        rw [hstep, hup]
        rw [List.eraseP_append_right]
        · rw [List.eraseP_cons_of_pos (by simp), List.append_nil]
        · intro b hb hbeq
          have hblt := hbound b hb
          have : b.id = s.nextId := by simpa using hbeq
          omega
      have hfind2 : s.codigos.find? (fun d => d.telefono == p && d.codigo == c) = none := by
        rw [List.find?_eq_none]
        intro a ha hq
        exact (Bool.eq_false_iff.mp (hall a ha)) (himp a hq)
      constructor
      · simp [verificarUsuario, hfind]
      · generalize (verificarUsuario p c (upsertCodigo p c s)).2 = S2 at hs2cod ⊢
        simp [verificarUsuario, hs2cod, hfind2]
  | some d0 =>
      have hd0 : (d0.telefono == p) = true := by
        have hx := List.find?_some hf
        simpa using hx
      rcases reemplazarPrimero_decomp (fun d => d.telefono == p)
        { id := d0.id, telefono := p, codigo := c } s.codigos d0 hf with ⟨l1, l2, hl, hl1, hr⟩
      have hup : (upsertCodigo p c s).codigos =
          l1 ++ { id := d0.id, telefono := p, codigo := c } :: l2 := by
        simp [upsertCodigo, hf]
        exact hr
      have hl2 : ∀ a ∈ l2, (a.telefono == p) = false := by
        rw [hl, List.countP_append, List.countP_cons, if_pos hd0] at hcount
        have h0 : l2.countP (fun d => d.telefono == p) = 0 := by omega
        intro a ha
        exact Bool.eq_false_iff.mpr ((List.countP_eq_zero.mp h0) a ha)
      have hfind : (upsertCodigo p c s).codigos.find?
          (fun d => d.telefono == p && d.codigo == c) =
          some { id := d0.id, telefono := p, codigo := c } := by
        rw [hup, List.find?_append]
        have h1 : l1.find? (fun d => d.telefono == p && d.codigo == c) = none := by
          rw [List.find?_eq_none]
          intro a ha hq
          exact (Bool.eq_false_iff.mp (hl1 a ha)) (himp a hq)
        rw [h1]
        simp [List.find?_cons]
      have hnotin1 : ∀ b ∈ l1, ¬ ((b.id == d0.id) = true) := by
        have hids2 := hids
        rw [hl] at hids2
        simp only [List.map_append, List.map_cons] at hids2
        rw [List.nodup_append] at hids2
        intro b hb hbeq
        have hbid : b.id = d0.id := by simpa using hbeq
        exact hids2.2.2 (List.mem_map_of_mem (fun d => d.id) hb)
          (hbid ▸ List.mem_cons_self d0.id _)
      have herase : (l1 ++ { id := d0.id, telefono := p, codigo := c } :: l2).eraseP
          (fun d => d.id == d0.id) = l1 ++ l2 := by
        rw [List.eraseP_append_right _ hnotin1]
        rw [List.eraseP_cons_of_pos (by simp)]
      have hs2cod : (verificarUsuario p c (upsertCodigo p c s)).2.codigos = l1 ++ l2 := by
        have hstep : (verificarUsuario p c (upsertCodigo p c s)).2.codigos =
            (upsertCodigo p c s).codigos.eraseP (fun d => d.id == d0.id) := by
          simp [verificarUsuario, hfind]
        rw [hstep, hup, herase]
      have hfind2 : (l1 ++ l2).find? (fun d => d.telefono == p && d.codigo == c) = none := by
        rw [List.find?_eq_none]
        intro a ha hq
        rcases List.mem_append.mp ha with ha | ha
        · exact (Bool.eq_false_iff.mp (hl1 a ha)) (himp a hq)
        · exact (Bool.eq_false_iff.mp (hl2 a ha)) (himp a hq)
      constructor
      · simp [verificarUsuario, hfind]
      · generalize (verificarUsuario p c (upsertCodigo p c s)).2 = S2 at hs2cod ⊢
        simp [verificarUsuario, hs2cod, hfind2]

/-- C5 witness: a concrete register-then-verify-twice run — the first
verification succeeds, the second is rejected. -/
theorem registroVerificacion_un_solo_uso_witness :
    (verificarUsuario "+34600111222" "482913"
        (registrarUsuario "+34600111222" "482913" true tiendaVacia).2.2).1 =
      enviarRespuestaExitosa "Código verificado correctamente" Datos.vacio 200 ∧
    verificarUsuario "+34600111222" "482913"
        (verificarUsuario "+34600111222" "482913"
          (registrarUsuario "+34600111222" "482913" true tiendaVacia).2.2).2 =
      (enviarRespuestaError "Código incorrecto o expirado" "CODIGO_INVALIDO_O_EXPIRADO" none 400,
       (verificarUsuario "+34600111222" "482913"
         (registrarUsuario "+34600111222" "482913" true tiendaVacia).2.2).2) :=
  registroVerificacion_un_solo_uso "+34600111222" "482913" true tiendaVacia
    (by decide) (by decide) (by decide)

/-- A successful `accesoMaestro` call when the admin-phone user exists:
the stored user is reused unchanged and one fresh session is appended. -/
theorem accesoMaestro_existente (cfg : Config) (jwt tok : String) (s : Store) (u : UsuarioDoc)
    (hu : s.usuarios.find? (fun x => x.telefono == cfg.telefonoAdmin) = some u) :
    accesoMaestro cfg cfg.codigoMaestro jwt tok s =
      (enviarRespuestaExitosa "Acceso maestro exitoso"
        (Datos.masterDatos jwt tok u.id u.telefono u.rol) 200,
       { codigos := s.codigos
         usuarios := s.usuarios
         refreshTokens := s.refreshTokens ++ [{ id := s.nextId, token := tok, usuarioId := u.id }]
         nextId := s.nextId + 1 }) := by
  simp [accesoMaestro, hu]

/-- A successful `accesoMaestro` call when no admin-phone user exists: the
admin user is created with the fresh id and a session is appended. -/
theorem accesoMaestro_nuevo (cfg : Config) (jwt tok : String) (s : Store)
    (hu : s.usuarios.find? (fun x => x.telefono == cfg.telefonoAdmin) = none) :
    accesoMaestro cfg cfg.codigoMaestro jwt tok s =
      (enviarRespuestaExitosa "Acceso maestro exitoso"
        (Datos.masterDatos jwt tok s.nextId cfg.telefonoAdmin Rol.admin) 200,
       { codigos := s.codigos
         usuarios := s.usuarios ++ [{ id := s.nextId, telefono := cfg.telefonoAdmin,
                                      estaVerificado := false, rol := Rol.admin }]
         refreshTokens := s.refreshTokens ++
           [{ id := s.nextId + 1, token := tok, usuarioId := s.nextId }]
         nextId := s.nextId + 2 }) := by
  simp [accesoMaestro, hu]

/-- Fold specification for a sequence of correct-code `accesoMaestro`
calls: every call resolves the identity resolved by the first call, the
users collection grows by at most the one created admin, the third
conjunct pins it unchanged when the admin user pre-exists, one session per
call is appended, and the session ids stay bounded and duplicate-free. -/
theorem llamadasMaestro_spec (cfg : Config) :
    ∀ (inputs : List (String × String)) (s : Store),
      (∀ r ∈ s.refreshTokens, r.id < s.nextId) →
      ((s.refreshTokens.map (fun r => r.id)).Nodup) →
      (∀ e ∈ (llamadasMaestro cfg cfg.codigoMaestro inputs s).1,
          idUsuarioDe e = some (resolvedAdminId cfg s)) ∧
      ((llamadasMaestro cfg cfg.codigoMaestro inputs s).2.usuarios = s.usuarios ∨
        (llamadasMaestro cfg cfg.codigoMaestro inputs s).2.usuarios =
          s.usuarios ++ [{ id := s.nextId, telefono := cfg.telefonoAdmin,
                           estaVerificado := false, rol := Rol.admin }]) ∧
      (∀ u, s.usuarios.find? (fun x => x.telefono == cfg.telefonoAdmin) = some u →
          (llamadasMaestro cfg cfg.codigoMaestro inputs s).2.usuarios = s.usuarios) ∧
      (llamadasMaestro cfg cfg.codigoMaestro inputs s).2.refreshTokens.length =
        s.refreshTokens.length + inputs.length ∧
      (∀ r ∈ (llamadasMaestro cfg cfg.codigoMaestro inputs s).2.refreshTokens,
          r.id < (llamadasMaestro cfg cfg.codigoMaestro inputs s).2.nextId) ∧
      ((llamadasMaestro cfg cfg.codigoMaestro inputs s).2.refreshTokens.map
          (fun r => r.id)).Nodup := by
  intro inputs
  induction inputs with
  | nil =>
      intro s hb hn
      refine ⟨?_, Or.inl rfl, fun u _ => rfl, by simp [llamadasMaestro], hb, hn⟩
      intro e he
      cases he
  | cons head rest ih =>
      obtain ⟨jwt, tok⟩ := head
      intro s hb hn
      cases hu : s.usuarios.find? (fun x => x.telefono == cfg.telefonoAdmin) with
      | some u =>
          have hcall := accesoMaestro_existente cfg jwt tok s u hu
          have hb1 : ∀ r ∈ (s.refreshTokens ++
              [({ id := s.nextId, token := tok, usuarioId := u.id } : RefreshDoc)]),
              r.id < s.nextId + 1 := by
            intro r hr
            rcases List.mem_append.mp hr with hr | hr
            · have := hb r hr
              omega
            · simp only [List.mem_singleton] at hr
              subst hr
              simp
          have hn1 : ((s.refreshTokens ++
              [({ id := s.nextId, token := tok, usuarioId := u.id } : RefreshDoc)]).map
              (fun r => r.id)).Nodup := by
            rw [List.map_append, List.nodup_append]
            refine ⟨hn, by simp, ?_⟩
            intro a ha ha2
            simp only [List.map_cons, List.map_nil, List.mem_singleton] at ha2
            rcases List.mem_map.mp ha with ⟨r, hr, hrid⟩
            have := hb r hr
            omega
          have hih := ih { codigos := s.codigos
                           usuarios := s.usuarios
                           refreshTokens := s.refreshTokens ++
                             [{ id := s.nextId, token := tok, usuarioId := u.id }]
                           nextId := s.nextId + 1 } hb1 hn1
          have hress : resolvedAdminId cfg s = u.id := by
            simp [resolvedAdminId, hu]
          have hres1 : resolvedAdminId cfg
              { codigos := s.codigos
                usuarios := s.usuarios
                refreshTokens := s.refreshTokens ++
                  [{ id := s.nextId, token := tok, usuarioId := u.id }]
                nextId := s.nextId + 1 } = u.id := by
            simp [resolvedAdminId, hu]
          simp only [llamadasMaestro, hcall]
          refine ⟨?_, ?_, ?_, ?_, ?_, ?_⟩
          · intro e he
            rcases List.mem_cons.mp he with he | he
            · subst he
              rw [hress]
              simp [idUsuarioDe, enviarRespuestaExitosa]
            · rw [hress]
              have := hih.1 e he
              rw [hres1] at this
              exact this
          · exact Or.inl (hih.2.2.1 u hu)
          · intro u2 _
            exact hih.2.2.1 u hu
          · have := hih.2.2.2.1
            simp only [List.length_append, List.length_cons, List.length_nil] at this
            rw [this]
            simp only [List.length_cons]
            omega
          · exact hih.2.2.2.2.1
          · exact hih.2.2.2.2.2
      | none =>
          have hcall := accesoMaestro_nuevo cfg jwt tok s hu
          have hb1 : ∀ r ∈ (s.refreshTokens ++
              [({ id := s.nextId + 1, token := tok, usuarioId := s.nextId } : RefreshDoc)]),
              r.id < s.nextId + 2 := by
            intro r hr
            rcases List.mem_append.mp hr with hr | hr
            · have := hb r hr
              omega
            · simp only [List.mem_singleton] at hr
              subst hr
              simp
          have hn1 : ((s.refreshTokens ++
              [({ id := s.nextId + 1, token := tok, usuarioId := s.nextId } : RefreshDoc)]).map
              (fun r => r.id)).Nodup := by
            rw [List.map_append, List.nodup_append]
            refine ⟨hn, by simp, ?_⟩
            intro a ha ha2
            simp only [List.map_cons, List.map_nil, List.mem_singleton] at ha2
            rcases List.mem_map.mp ha with ⟨r, hr, hrid⟩
            have := hb r hr
            omega
          have hfind1 : (s.usuarios ++
              [({ id := s.nextId, telefono := cfg.telefonoAdmin, estaVerificado := false, rol := Rol.admin } : UsuarioDoc)]).find?
              (fun x => x.telefono == cfg.telefonoAdmin) =
              some { id := s.nextId, telefono := cfg.telefonoAdmin, estaVerificado := false, rol := Rol.admin } :=
            find?_append_singleton _ _ _ _ (by simp) (fun a h => h) hu
          have hih := ih { codigos := s.codigos
                           usuarios := s.usuarios ++
                             [{ id := s.nextId, telefono := cfg.telefonoAdmin,
                                estaVerificado := false, rol := Rol.admin }]
                           refreshTokens := s.refreshTokens ++
                             [{ id := s.nextId + 1, token := tok, usuarioId := s.nextId }]
                           nextId := s.nextId + 2 } hb1 hn1
          have hress : resolvedAdminId cfg s = s.nextId := by
            simp [resolvedAdminId, hu]
          have hres1 : resolvedAdminId cfg
              { codigos := s.codigos
                usuarios := s.usuarios ++
                  [{ id := s.nextId, telefono := cfg.telefonoAdmin,
                     estaVerificado := false, rol := Rol.admin }]
                refreshTokens := s.refreshTokens ++
                  [{ id := s.nextId + 1, token := tok, usuarioId := s.nextId }]
                nextId := s.nextId + 2 } = s.nextId := by
            simp only [resolvedAdminId]
            rw [hfind1]
          simp only [llamadasMaestro, hcall]
          refine ⟨?_, ?_, ?_, ?_, ?_, ?_⟩
          · intro e he
            rcases List.mem_cons.mp he with he | he
            · subst he
              rw [hress]
              simp [idUsuarioDe, enviarRespuestaExitosa]
            · rw [hress]
              have := hih.1 e he
              rw [hres1] at this
              exact this
          · refine Or.inr ?_
            have := hih.2.2.1 _ hfind1
            rw [this]
          · intro u2 hu2
            simp [hu] at hu2
          · have := hih.2.2.2.1
            simp only [List.length_append, List.length_cons, List.length_nil] at this
            rw [this]
            simp only [List.length_cons]
            omega
          · exact hih.2.2.2.2.1
          · exact hih.2.2.2.2.2

/-- C2: `accesoMaestro` with a wrong code changes nothing (all three
stores are returned untouched and no Identity is created or mutated);
with the correct code, every call of any sequence resolves the same single
Identity — at most one Identity is ever created for the admin phone, and
none when one already exists — while each successful call persists one
fresh RefreshSession (one appended per call, all with pairwise distinct
ids). -/
theorem accesoMaestro_identidad_y_sesiones (cfg : Config) (s : Store)
    (hb : ∀ r ∈ s.refreshTokens, r.id < s.nextId)
    (hn : (s.refreshTokens.map (fun r => r.id)).Nodup) :
    (∀ c jwt tok, c ≠ cfg.codigoMaestro →
      accesoMaestro cfg c jwt tok s =
        (enviarRespuestaError "Código incorrecto" "CODIGO_MAESTRO_INVALIDO" none 401, s)) ∧
    (∀ inputs : List (String × String),
      (∀ e ∈ (llamadasMaestro cfg cfg.codigoMaestro inputs s).1,
        idUsuarioDe e = some (resolvedAdminId cfg s)) ∧
      (llamadasMaestro cfg cfg.codigoMaestro inputs s).2.usuarios.length ≤
        s.usuarios.length + 1 ∧
      (∀ u, s.usuarios.find? (fun x => x.telefono == cfg.telefonoAdmin) = some u →
        (llamadasMaestro cfg cfg.codigoMaestro inputs s).2.usuarios = s.usuarios) ∧
      (llamadasMaestro cfg cfg.codigoMaestro inputs s).2.refreshTokens.length =
        s.refreshTokens.length + inputs.length ∧
      ((llamadasMaestro cfg cfg.codigoMaestro inputs s).2.refreshTokens.map
        (fun r => r.id)).Nodup) := by
  constructor
  · intro c jwt tok hc
    simp [accesoMaestro, hc]
  · intro inputs
    have h := llamadasMaestro_spec cfg inputs s hb hn
    refine ⟨h.1, ?_, h.2.2.1, h.2.2.2.1, h.2.2.2.2.2⟩
    rcases h.2.1 with h2 | h2 <;> rw [h2] <;> simp

/-- C2 witness: from the empty store, a wrong code changes nothing, and a
two-call correct-code sequence resolves one identity and persists two
distinct sessions. -/
theorem accesoMaestro_identidad_y_sesiones_witness :
    accesoMaestro cfgDemo "codigo-erroneo" "j0" "r0" tiendaVacia =
      (enviarRespuestaError "Código incorrecto" "CODIGO_MAESTRO_INVALIDO" none 401,
       tiendaVacia) ∧
    (∀ e ∈ (llamadasMaestro cfgDemo cfgDemo.codigoMaestro [("j1", "r1"), ("j2", "r2")]
        tiendaVacia).1,
      idUsuarioDe e = some (resolvedAdminId cfgDemo tiendaVacia)) ∧
    (llamadasMaestro cfgDemo cfgDemo.codigoMaestro [("j1", "r1"), ("j2", "r2")]
        tiendaVacia).2.usuarios.length ≤ tiendaVacia.usuarios.length + 1 ∧
    (llamadasMaestro cfgDemo cfgDemo.codigoMaestro [("j1", "r1"), ("j2", "r2")]
        tiendaVacia).2.refreshTokens.length = tiendaVacia.refreshTokens.length + 2 ∧
    ((llamadasMaestro cfgDemo cfgDemo.codigoMaestro [("j1", "r1"), ("j2", "r2")]
        tiendaVacia).2.refreshTokens.map (fun r => r.id)).Nodup := by
  have h := accesoMaestro_identidad_y_sesiones cfgDemo tiendaVacia
    (by decide) (by decide)
  have h2 := h.2 [("j1", "r1"), ("j2", "r2")]
  exact ⟨h.1 "codigo-erroneo" "j0" "r0" (by decide), h2.1, h2.2.1, h2.2.2.2.1, h2.2.2.2.2⟩
